import Mathlib

/-!
Shallow embedding of the playback / mixing / metering engine of
`src/components/AudioLab.tsx` (Virtual-Sonics).

JavaScript numbers are modelled by exact rationals (`ℚ`); none of the
verified properties depends on ulp-level floating-point rounding.  Where a
computation can produce `NaN` (JavaScript `Math.min`/`Math.max` propagate
`NaN`), numbers are modelled by the explicit type `JSNum` below.
`Math.random()` results are modelled as parameters `r : ℚ` constrained by
`0 ≤ r < 1`.
-/

/-- `PlaybackStatus` from AudioLab.tsx: `'PLAYING' | 'PAUSED' | 'STOPPED'`. -/
inductive PlaybackStatus where
  | PLAYING
  | PAUSED
  | STOPPED
deriving DecidableEq

/-- `LabModule` from AudioLab.tsx: `'DAW' | 'TUNER' | 'KARAOKE' | 'GENERATOR' | 'EXPLORER'`. -/
inductive LabModule where
  | DAW
  | TUNER
  | KARAOKE
  | GENERATOR
  | EXPLORER
deriving DecidableEq

/-- `AudioStem` from types.ts.  `pan?: number` is optional there, hence `Option ℚ`. -/
structure AudioStem where
  id : String
  name : String
  volume : ℚ
  muted : Bool
  color : String
  pan : Option ℚ
deriving DecidableEq

/-- `LyricLine` from types.ts. -/
structure LyricLine where
  time : ℚ
  text : String
deriving DecidableEq

/-- `AudioMetadata` from types.ts (`lyrics?: LyricLine[]` is optional). -/
structure AudioMetadata where
  bpm : ℚ
  key : String
  chords : List String
  lyrics : Option (List LyricLine)
deriving DecidableEq

/-- `const trackDuration = 180` (AudioLab.tsx line 60). -/
def trackDuration : ℚ := 180

/-- `const EQ_BANDS = 12` (AudioLab.tsx line 61). -/
def EQ_BANDS : ℕ := 12

/-- A JavaScript number that may be `NaN`.  Arithmetic and `Math.min`/`Math.max`
propagate `NaN`, following the ECMAScript specification. -/
inductive JSNum where
  | nan
  | num (q : ℚ)
deriving DecidableEq

/-- JavaScript division.  Only used with nonzero finite divisors in this
development (the source divides by the constant `trackDuration = 180`),
so the `±Infinity` cases of ECMAScript division never arise. -/
def JSNum.div : JSNum → JSNum → JSNum
  | JSNum.num a, JSNum.num b => JSNum.num (a / b)
  | _, _ => JSNum.nan

/-- JavaScript multiplication (`NaN` propagates). -/
def JSNum.mul : JSNum → JSNum → JSNum
  | JSNum.num a, JSNum.num b => JSNum.num (a * b)
  | _, _ => JSNum.nan

/-- ECMAScript `Math.min`: returns `NaN` if any argument is `NaN`. -/
def jsMin : JSNum → JSNum → JSNum
  | JSNum.num a, JSNum.num b => JSNum.num (min a b)
  | _, _ => JSNum.nan

/-- ECMAScript `Math.max`: returns `NaN` if any argument is `NaN`. -/
def jsMax : JSNum → JSNum → JSNum
  | JSNum.num a, JSNum.num b => JSNum.num (max a b)
  | _, _ => JSNum.nan

/-- Transport state: `playbackStatus` and `playbackProgress` (0 to 100). -/
structure TransportState where
  playbackStatus : PlaybackStatus
  playbackProgress : JSNum
deriving DecidableEq

/-- The body of the `update` closure in the playback effect (AudioLab.tsx
lines 129-140), which runs only while `playbackStatus === 'PLAYING'`:
`newProgress = (elapsed / (trackDuration * 1000 / playbackSpeed)) * 100`;
if `newProgress >= 100` it sets progress to 0 and status to `'STOPPED'`,
otherwise it sets progress to `newProgress` (status stays `'PLAYING'`). -/
def updateTick (playbackSpeed elapsed : ℚ) : TransportState :=
  let newProgress := elapsed / (trackDuration * 1000 / playbackSpeed) * 100
  if newProgress ≥ 100 then
    { playbackStatus := PlaybackStatus.STOPPED, playbackProgress := JSNum.num 0 }
  else
    { playbackStatus := PlaybackStatus.PLAYING, playbackProgress := JSNum.num newProgress }

/-- `isStemActive` (AudioLab.tsx lines 328-331): with a non-empty solo list a
stem is active iff its id is soloed, otherwise iff it is not muted. -/
def isStemActive (soloedIds : List String) (stem : AudioStem) : Bool :=
  if soloedIds.length > 0 then soloedIds.contains stem.id
  else !stem.muted

/-- `jumpToTime` (AudioLab.tsx lines 161-166): no-op while processing;
otherwise `newProgress = (time / trackDuration) * 100`, clamped by
`Math.max(0, Math.min(100, newProgress))`; a `'STOPPED'` transport becomes
`'PAUSED'`. -/
def jumpToTime (isProcessing : Bool) (time : JSNum) (st : TransportState) : TransportState :=
  if isProcessing then st
  else
    let newProgress := (time.div (JSNum.num trackDuration)).mul (JSNum.num 100)
    { playbackStatus :=
        if st.playbackStatus = PlaybackStatus.STOPPED then PlaybackStatus.PAUSED
        else st.playbackStatus,
      playbackProgress := jsMax (JSNum.num 0) (jsMin (JSNum.num 100) newProgress) }

/-- `charsPrefixOf pat l` : `pat` is a prefix of `l` (character lists). -/
def charsPrefixOf : List Char → List Char → Bool
  | [], _ => true
  | _ :: _, [] => false
  | a :: as, b :: bs => a == b && charsPrefixOf as bs

/-- `charsInfixOf pat l` : `pat` occurs contiguously inside `l`. -/
def charsInfixOf (pat : List Char) : List Char → Bool
  | [] => charsPrefixOf pat []
  | c :: rest => charsPrefixOf pat (c :: rest) || charsInfixOf pat rest

/-- JavaScript `s.toLowerCase()` on the ASCII stem names used here,
as a character list. -/
def lowerChars (s : String) : List Char := s.data.map Char.toLower

/-- `stem.name.toLowerCase().includes('vocal')` (AudioLab.tsx lines 88, 597). -/
def containsVocal (s : String) : Bool := charsInfixOf "vocal".data (lowerChars s)

/-- The vocal-stem heuristic used at AudioLab.tsx lines 88 and 597:
`stem.name.toLowerCase().includes('vocal') || stem.id === '1'`. -/
def isVocalStem (stem : AudioStem) : Bool := containsVocal stem.name || stem.id == "1"

/-- `effectiveVol` in the metering loop (AudioLab.tsx lines 86-90): base is
`stem.volume`; if `isVocalReference` and the stem is a vocal stem, override to
`Math.max(15, stem.volume * 0.2)`. -/
def effectiveVol (isVocalReference : Bool) (stem : AudioStem) : ℚ :=
  if isVocalReference && isVocalStem stem then max 15 (stem.volume * 0.2)
  else stem.volume

/-- `displayVolume` in the track row render (AudioLab.tsx line 605):
`(isVocalReference && isVocalStem) ? Math.max(20, stem.volume * 0.25) : stem.volume`. -/
def displayVolume (isVocalReference : Bool) (stem : AudioStem) : ℚ :=
  if isVocalReference && isVocalStem stem then max 20 (stem.volume * 0.25)
  else stem.volume

/-- `rawPeak = Math.random() * (effectiveVol / 100)` (AudioLab.tsx line 92);
the `Math.random()` draw is the parameter `r1` (with `0 ≤ r1 < 1`). -/
def meterPeak (r1 vol : ℚ) : ℚ := r1 * (vol / 100)

/-- `newRms[stemIdx] = rawPeak * (0.6 + Math.random() * 0.2)` (AudioLab.tsx
line 93); the `Math.random()` draw is the parameter `r2`. -/
def meterRms (rawPeak r2 : ℚ) : ℚ := rawPeak * (0.6 + r2 * 0.2)

/-- `weighting = 1.0 - (bIdx / EQ_BANDS) * 0.4` (AudioLab.tsx line 98). -/
def bandWeight (bIdx : ℕ) : ℚ := 1 - ((bIdx : ℚ) / (EQ_BANDS : ℚ)) * 0.4

/-- One spectral band sample (AudioLab.tsx line 99):
`Math.random() * (effectiveVol / 100) * weighting * (0.3 + Math.random() * 0.7)`;
the two independent `Math.random()` draws are `r` and `r'` (each in `[0,1)`). -/
def bandLevel (r r' vol : ℚ) (bIdx : ℕ) : ℚ :=
  r * (vol / 100) * bandWeight bIdx * (0.3 + r' * 0.7)

/-- The `findIndex` call of `currentLyricIndex` (AudioLab.tsx line 336):
first index `i` with `l.time <= time && (lyrics[i+1]?.time > time || i === lyrics.length - 1)`.
JavaScript's `-1` ("no current lyric") is modelled as `none`.  The recursion
returns the first matching index; the predicate at position `i` of the whole
list equals the predicate at position `0` of the list dropped to `i`, so this
is `findIndex`. -/
def findLyricIdx : List LyricLine → ℚ → Option ℕ
  | [], _ => none
  | [a], t => if a.time ≤ t then some 0 else none
  | a :: b :: rest, t =>
      if a.time ≤ t ∧ t < b.time then some 0
      else (findLyricIdx (b :: rest) t).map Nat.succ

/-- `currentLyricIndex` (AudioLab.tsx lines 333-337): `-1` (here `none`) when
metadata or its lyrics are absent, else `findIndex` over the cue list at
`time = (playbackProgress / 100) * trackDuration`. -/
def currentLyricIndex (metadata : Option AudioMetadata) (playbackProgress : ℚ) : Option ℕ :=
  match metadata with
  | none => none
  | some md =>
    match md.lyrics with
    | none => none
    | some lyrics => findLyricIdx lyrics (playbackProgress / 100 * trackDuration)

/-- The spec's characterization predicate for `currentIndex`, as a Boolean:
`cue[i].time ≤ time AND (i is last OR cue[i+1].time > time)`; false when `i`
is out of range.  (`i` has a successor in range iff `i` is not the last
index, so the two branches cover "next cue exists" versus "i is last".) -/
def isCurrentCue (lyrics : List LyricLine) (t : ℚ) (i : ℕ) : Bool :=
  match lyrics[i]?, lyrics[i + 1]? with
  | some c, some c' => decide (c.time ≤ t) && decide (t < c'.time)
  | some c, none => decide (c.time ≤ t)
  | none, _ => false

/-- The serialized project blob written by `saveProjectToLocal`
(AudioLab.tsx lines 179-189). -/
structure SavedProject where
  stems : List AudioStem
  soloedIds : List String
  metadata : Option AudioMetadata
  playbackSpeed : ℚ
  pitch : ℚ
  isolationThreshold : ℚ
  isProjectGenerated : Bool
  songFileName : String
  timestamp : ℤ
deriving DecidableEq

/-- The in-memory session state touched by save/load.  A `File` is modelled
by its name (the only field the module reads). -/
structure LabState where
  stems : List AudioStem
  soloedIds : List String
  metadata : Option AudioMetadata
  playbackSpeed : ℚ
  pitch : ℚ
  isolationThreshold : ℚ
  isProjectGenerated : Bool
  songFile : Option String
  activeModule : LabModule
deriving DecidableEq

/-- `saveProjectToLocal` (AudioLab.tsx lines 177-192): returns the blob
written to `localStorage` under `'vs_project_cache'`, or `none` when there is
no song file (`if (!songFile) return;` — nothing is written).  `Date.now()`
is the parameter `now`.  JSON serialization is modelled by storing the
structured value itself: `JSON.stringify` followed by `JSON.parse` is the
identity on the kinds of values stored here (finite numbers, booleans,
strings, arrays, plain objects). -/
def saveProjectToLocal (now : ℤ) (st : LabState) : Option SavedProject :=
  match st.songFile with
  | none => none
  | some fname =>
      some { stems := st.stems
             soloedIds := st.soloedIds
             metadata := st.metadata
             playbackSpeed := st.playbackSpeed
             pitch := st.pitch
             isolationThreshold := st.isolationThreshold
             isProjectGenerated := st.isProjectGenerated
             songFileName := fname
             timestamp := now }

/-- `loadProjectFromLocal` (AudioLab.tsx lines 194-212).  The store content
is `none` when the key is absent (`if (saved)` fails: nothing happens).
Otherwise the stored blob either decodes to a `SavedProject` or not:
`JSON.parse(saved)` throwing, and `state.stems.map(...)` throwing on a blob
whose `stems` is not an array, both happen before the first state write and
land in the `catch`, which only logs `"Restore failed"`; both are modelled
as `Except.error`.  On success every field is replaced, stems via
`{ ...s, pan: s.pan ?? 0 }`, and `setActiveModule('DAW')` runs.  The second
component is the logged error indicator. -/
def loadProjectFromLocal (saved : Option (Except String SavedProject)) (st : LabState) :
    LabState × Option String :=
  match saved with
  | none => (st, none)
  | some (Except.error _) => (st, some "Restore failed")
  | some (Except.ok sp) =>
      ({ stems := sp.stems.map (fun s => { s with pan := some (s.pan.getD 0) })
         soloedIds := sp.soloedIds
         metadata := sp.metadata
         playbackSpeed := sp.playbackSpeed
         pitch := sp.pitch
         isolationThreshold := sp.isolationThreshold
         isProjectGenerated := sp.isProjectGenerated
         songFile := some sp.songFileName
         activeModule := LabModule.DAW }, none)

/-- HTML `<input type="range" min max>` value sanitization: the browser clamps
the control's value into `[min, max]`, so `e.target.value` read by the change
handler is always in range.  The volume slider has `min="0" max="100"` and the
pan slider `min="-100" max="100"` (AudioLab.tsx lines 692-696 and 703-707). -/
def clampRangeInput (lo hi raw : ℤ) : ℤ := max lo (min hi raw)

/-- The volume slider write (AudioLab.tsx lines 692-696): the range control
clamps the raw value into `[0, 100]`, then the `onChange` handler runs
`setStems(stems.map(s => s.id === stem.id ? { ...s, volume: parseInt(v) } : s))`. -/
def setStemVolume (stems : List AudioStem) (id : String) (raw : ℤ) : List AudioStem :=
  stems.map (fun s =>
    if s.id == id then { s with volume := (clampRangeInput 0 100 raw : ℤ) } else s)

/-- The pan slider write (AudioLab.tsx lines 703-707): the range control
clamps the raw value into `[-100, 100]`, then the handler runs
`setStems(stems.map(s => s.id === stem.id ? { ...s, pan: parseInt(v) } : s))`. -/
def setStemPan (stems : List AudioStem) (id : String) (raw : ℤ) : List AudioStem :=
  stems.map (fun s =>
    if s.id == id then { s with pan := some ((clampRangeInput (-100) 100 raw : ℤ) : ℚ) } else s)

/-- The registry range invariant of the spec's data model: `volume` in
`[0, 100]`, `pan` (when present; it defaults to 0) in `[-100, 100]`. -/
def stemInRange (s : AudioStem) : Prop :=
  0 ≤ s.volume ∧ s.volume ≤ 100 ∧ -100 ≤ s.pan.getD 0 ∧ s.pan.getD 0 ≤ 100

/-- One stem's entry `(peak, rms)` of the metering frame produced by the
`setInterval` callback while playing (AudioLab.tsx lines 80-103): inactive
stems get `(0, 0)`; active stems get `rawPeak = r1 * (effectiveVol / 100)`
and `rms = rawPeak * (0.6 + r2 * 0.2)`, with the two `Math.random()` draws
as the parameters `r1`, `r2` (each in `[0, 1)`). -/
def stemFrame (soloedIds : List String) (isVocalReference : Bool) (stem : AudioStem)
    (r1 r2 : ℚ) : ℚ × ℚ :=
  if isStemActive soloedIds stem then
    let rawPeak := meterPeak r1 (effectiveVol isVocalReference stem)
    (rawPeak, meterRms rawPeak r2)
  else (0, 0)

/-- C1: while status is `Playing`, a transport tick whose computed progress is
`≥ 100` atomically sets progress to `0` and status to `Stopped`; the excess is
never wrapped into a small positive progress and playback never loops. -/
theorem transport_autoStop (playbackSpeed elapsed : ℚ)
    (h : elapsed / (trackDuration * 1000 / playbackSpeed) * 100 ≥ 100) :
    updateTick playbackSpeed elapsed =
      { playbackStatus := PlaybackStatus.STOPPED, playbackProgress := JSNum.num 0 } := by
  unfold updateTick
  simp only [if_pos h]

/-- Witness for `transport_autoStop`: with `speed = 1` and one millisecond of
wall time past the 180-second track end, the computed progress exceeds 100 and
the transport stops with progress exactly 0 (not 100.0005… − 100). -/
theorem transport_autoStop_witness :
    updateTick 1 180001 =
      { playbackStatus := PlaybackStatus.STOPPED, playbackProgress := JSNum.num 0 } :=
  transport_autoStop 1 180001 (by norm_num [trackDuration])

/-- C2: with a non-empty solo set a stem is active iff its id is soloed (mute
ignored); with an empty solo set it is active iff not muted; and activity
depends only on the solo list and the stem's id and muted flag. -/
theorem soloOverride_spec (soloedIds : List String) (stem stem' : AudioStem)
    (hid : stem'.id = stem.id) (hmut : stem'.muted = stem.muted) :
    (soloedIds ≠ [] → (isStemActive soloedIds stem = true ↔ stem.id ∈ soloedIds))
    ∧ (soloedIds = [] → (isStemActive soloedIds stem = true ↔ stem.muted = false))
    ∧ isStemActive soloedIds stem' = isStemActive soloedIds stem := by
  refine ⟨?_, ?_, ?_⟩
  · intro hne
    have hlen : soloedIds.length > 0 := List.length_pos.mpr hne
    simp [isStemActive, hlen]
  · intro he
    subst he
    simp [isStemActive]
  · simp [isStemActive, hid, hmut]

/-- Witness for `soloOverride_spec`, the spec's solo-override scenario: stems
`[{id:1,muted:false},{id:2,muted:true}]` with solo set `{2}` give
`isActive(1) = false` and `isActive(2) = true`. -/
theorem soloOverride_spec_witness :
    isStemActive ["2"] { id := "1", name := "Vox", volume := 80, muted := false,
                         color := "emerald-400", pan := some 0 } = false
    ∧ isStemActive ["2"] { id := "2", name := "Drums", volume := 80, muted := true,
                           color := "blue-400", pan := some 0 } = true := by
  have h1 := (soloOverride_spec ["2"]
    { id := "1", name := "Vox", volume := 80, muted := false,
      color := "emerald-400", pan := some 0 }
    { id := "1", name := "Vox", volume := 80, muted := false,
      color := "emerald-400", pan := some 0 } rfl rfl).1 (by decide)
  have h2 := (soloOverride_spec ["2"]
    { id := "2", name := "Drums", volume := 80, muted := true,
      color := "blue-400", pan := some 0 }
    { id := "2", name := "Drums", volume := 80, muted := true,
      color := "blue-400", pan := some 0 } rfl rfl).1 (by decide)
  refine ⟨?_, h2.mpr (by decide)⟩
  cases hb : isStemActive ["2"] { id := "1", name := "Vox", volume := 80, muted := false,
                                  color := "emerald-400", pan := some 0 }
  · rfl
  · exact absurd (h1.mp hb) (by decide)

/-- C7: `loadProjectFromLocal` is atomic on failure — an absent key is a
complete no-op, and an unparseable blob leaves every in-memory field (stem
registry, solo set, metadata with its lyric cues, speed, …) exactly as it
was while signalling the failure ("Restore failed" is logged). -/
theorem load_failure_atomic (st : LabState) (e : String) :
    loadProjectFromLocal none st = (st, none)
    ∧ loadProjectFromLocal (some (Except.error e)) st = (st, some "Restore failed") :=
  ⟨rfl, rfl⟩

/-- Witness for `load_failure_atomic` at a concrete populated state and a
concrete corrupt blob. -/
theorem load_failure_atomic_witness :
    loadProjectFromLocal none
      { stems := [{ id := "1", name := "Isolated Vocals", volume := 0, muted := false,
                    color := "emerald-400", pan := some 0 }],
        soloedIds := ["1"], metadata := none, playbackSpeed := 1, pitch := 0,
        isolationThreshold := 75, isProjectGenerated := false,
        songFile := some "track.mp3", activeModule := LabModule.DAW }
      = ({ stems := [{ id := "1", name := "Isolated Vocals", volume := 0, muted := false,
                       color := "emerald-400", pan := some 0 }],
           soloedIds := ["1"], metadata := none, playbackSpeed := 1, pitch := 0,
           isolationThreshold := 75, isProjectGenerated := false,
           songFile := some "track.mp3", activeModule := LabModule.DAW }, none)
    ∧ loadProjectFromLocal (some (Except.error "not json"))
      { stems := [{ id := "1", name := "Isolated Vocals", volume := 0, muted := false,
                    color := "emerald-400", pan := some 0 }],
        soloedIds := ["1"], metadata := none, playbackSpeed := 1, pitch := 0,
        isolationThreshold := 75, isProjectGenerated := false,
        songFile := some "track.mp3", activeModule := LabModule.DAW }
      = ({ stems := [{ id := "1", name := "Isolated Vocals", volume := 0, muted := false,
                       color := "emerald-400", pan := some 0 }],
           soloedIds := ["1"], metadata := none, playbackSpeed := 1, pitch := 0,
           isolationThreshold := 75, isProjectGenerated := false,
           songFile := some "track.mp3", activeModule := LabModule.DAW }, some "Restore failed") :=
  load_failure_atomic _ "not json"

/-- Clamping the progress percentage into `[0, 100]` (what the code does)
equals clamping the seek time into `[0, 180]` first and then converting to a
percentage (how the spec phrases it). -/
lemma clamp_percent_eq (t : ℚ) :
    max 0 (min 100 (t / 180 * 100)) = max 0 (min 180 t) / 180 * 100 := by
  simp only [min_def, max_def]
  split_ifs <;> linarith

/-- C3 counterexample: a `NaN` seek target is *not* clamped to 0 —
`Math.max(0, Math.min(100, NaN))` is `NaN`, so the stored progress becomes
`NaN`, contradicting "progress is set to 0, never NaN". -/
theorem seek_nan_counterexample :
    (jumpToTime false JSNum.nan
        { playbackStatus := PlaybackStatus.STOPPED, playbackProgress := JSNum.num 50 }).playbackProgress
      = JSNum.nan
    ∧ (jumpToTime false JSNum.nan
        { playbackStatus := PlaybackStatus.STOPPED, playbackProgress := JSNum.num 50 }).playbackProgress
      ≠ JSNum.num 0 := by
  refine ⟨rfl, ?_⟩
  intro h
  exact JSNum.noConfusion h

/-- C3 amended: for a (non-`NaN`) numeric seek target `t`, `jumpToTime` sets
progress to the percentage of `t` clamped into `[0, trackDuration]` (so a
negative target yields progress 0); a `NaN` target yields `NaN` progress (it
is not clamped); and a `Stopped` transport becomes `Paused` while any other
status is kept (a stopped transport never auto-plays on seek). -/
theorem seek_clamp_spec (t : ℚ) (st : TransportState) :
    (jumpToTime false (JSNum.num t) st).playbackProgress
        = JSNum.num (max 0 (min trackDuration t) / trackDuration * 100)
    ∧ (t < 0 → (jumpToTime false (JSNum.num t) st).playbackProgress = JSNum.num 0)
    ∧ (jumpToTime false JSNum.nan st).playbackProgress = JSNum.nan
    ∧ (st.playbackStatus = PlaybackStatus.STOPPED →
        (jumpToTime false (JSNum.num t) st).playbackStatus = PlaybackStatus.PAUSED)
    ∧ (st.playbackStatus ≠ PlaybackStatus.STOPPED →
        (jumpToTime false (JSNum.num t) st).playbackStatus = st.playbackStatus) := by
  have hprog : (jumpToTime false (JSNum.num t) st).playbackProgress
      = JSNum.num (max 0 (min 100 (t / 180 * 100))) := by
    simp [jumpToTime, JSNum.div, JSNum.mul, jsMin, jsMax, trackDuration]
  refine ⟨?_, ?_, ?_, ?_, ?_⟩
  · rw [hprog, trackDuration, clamp_percent_eq]
  · intro ht
    rw [hprog]
    have hle : t / 180 * 100 ≤ 0 := by linarith
    have : max 0 (min 100 (t / 180 * 100)) = 0 :=
      max_eq_left (le_trans (min_le_right _ _) hle)
    rw [this]
  · simp [jumpToTime, JSNum.div, JSNum.mul, jsMin, jsMax]
  · intro h
    simp [jumpToTime, h]
  · intro h
    simp [jumpToTime, h]

/-- Witness for `seek_clamp_spec`: seeking a stopped transport to `-5`
seconds clamps progress to 0 and pauses it; seeking it to `NaN` stores `NaN`
progress. -/
theorem seek_clamp_spec_witness :
    (jumpToTime false (JSNum.num (-5))
        { playbackStatus := PlaybackStatus.STOPPED, playbackProgress := JSNum.num 50 }).playbackProgress
      = JSNum.num 0
    ∧ (jumpToTime false (JSNum.num (-5))
        { playbackStatus := PlaybackStatus.STOPPED, playbackProgress := JSNum.num 50 }).playbackStatus
      = PlaybackStatus.PAUSED
    ∧ (jumpToTime false JSNum.nan
        { playbackStatus := PlaybackStatus.STOPPED, playbackProgress := JSNum.num 50 }).playbackProgress
      = JSNum.nan := by
  have h := seek_clamp_spec (-5)
    { playbackStatus := PlaybackStatus.STOPPED, playbackProgress := JSNum.num 50 }
  exact ⟨h.2.1 (by norm_num), h.2.2.2.1 rfl, h.2.2.1⟩

/-- C4 counterexample: for the vocal stem `{id:'1', name:'Isolated Vocals',
volume:0}` in reference mode, the metering amplitude uses
`Math.max(15, 0 × 0.2) = 15`, which is below 20 and differs from the
displayed gain `Math.max(20, 0 × 0.25) = 20` — so the overridden metering
volume is *not* always at least 20, and the display and metering overrides
are not the same function. -/
theorem vocalOverride_counterexample :
    effectiveVol true { id := "1", name := "Isolated Vocals", volume := 0, muted := false,
                        color := "emerald-400", pan := some 0 } = 15
    ∧ displayVolume true { id := "1", name := "Isolated Vocals", volume := 0, muted := false,
                           color := "emerald-400", pan := some 0 } = 20
    ∧ (15 : ℚ) < 20 := by
  have hv : isVocalStem { id := "1", name := "Isolated Vocals", volume := 0, muted := false,
                          color := "emerald-400", pan := some 0 } = true := by decide
  refine ⟨?_, ?_, by norm_num⟩
  · rw [effectiveVol, hv]
    norm_num
  · rw [displayVolume, hv]
    norm_num

/-- C4 amended: in reference mode, a vocal stem's *displayed* gain is
`max(20, volume × 0.25)` (hence at least 20), while the *metering* amplitude
uses `max(15, volume × 0.2)` (hence at least 15 but possibly below 20); the
two overrides are distinct, though both have the shape
`max(floor, volume × c)` with `c ∈ [0.2, 0.25]`. -/
theorem vocalOverride_spec (stem : AudioStem) (hvocal : isVocalStem stem = true) :
    effectiveVol true stem = max 15 (stem.volume * 0.2)
    ∧ displayVolume true stem = max 20 (stem.volume * 0.25)
    ∧ 15 ≤ effectiveVol true stem
    ∧ 20 ≤ displayVolume true stem := by
  have he : effectiveVol true stem = max 15 (stem.volume * 0.2) := by
    simp [effectiveVol, hvocal]
  have hd : displayVolume true stem = max 20 (stem.volume * 0.25) := by
    simp [displayVolume, hvocal]
  exact ⟨he, hd, he ▸ le_max_left _ _, hd ▸ le_max_left _ _⟩

/-- Witness for `vocalOverride_spec`: the vocal stem at volume 80 meters with
gain `max(15, 16) = 16` and displays `max(20, 20) = 20`. -/
theorem vocalOverride_spec_witness :
    effectiveVol true { id := "1", name := "Neural Vocals", volume := 80, muted := false,
                        color := "emerald-400", pan := some 0 } = 16
    ∧ displayVolume true { id := "1", name := "Neural Vocals", volume := 80, muted := false,
                           color := "emerald-400", pan := some 0 } = 20 := by
  have h := vocalOverride_spec
    { id := "1", name := "Neural Vocals", volume := 80, muted := false,
      color := "emerald-400", pan := some 0 } (by decide)
  refine ⟨?_, ?_⟩
  · rw [h.1]; norm_num
  · rw [h.2.1]; norm_num

/-- C5 counterexample: the active, unmuted stem `{id:'1', name:'Isolated
Vocals', volume:0}` (the default registry's first stem) with reference mode
off has `effectiveVolume = 0`; its synthetic peak is `r1 × 0 = 0`, which does
not lie in the empty interval `[0, 0/100)` — so "peak ∈ [0, effectiveVolume/100)"
fails when the effective volume is 0. -/
theorem meterPeak_range_counterexample :
    isStemActive [] { id := "1", name := "Isolated Vocals", volume := 0, muted := false,
                      color := "emerald-400", pan := some 0 } = true
    ∧ effectiveVol false { id := "1", name := "Isolated Vocals", volume := 0, muted := false,
                           color := "emerald-400", pan := some 0 } = 0
    ∧ (stemFrame [] false { id := "1", name := "Isolated Vocals", volume := 0, muted := false,
                            color := "emerald-400", pan := some 0 } (1/2) (1/2)).1 = 0
    ∧ ¬ ((stemFrame [] false { id := "1", name := "Isolated Vocals", volume := 0, muted := false,
                               color := "emerald-400", pan := some 0 } (1/2) (1/2)).1
          < effectiveVol false { id := "1", name := "Isolated Vocals", volume := 0, muted := false,
                                 color := "emerald-400", pan := some 0 } / 100) := by
  refine ⟨by decide, by simp [effectiveVol], ?_, ?_⟩
  · simp [stemFrame, isStemActive, meterPeak, effectiveVol]
  · simp [stemFrame, isStemActive, meterPeak, effectiveVol]

/-- C5 amended: in every metering frame entry, `rms ≤ peak`; for an active
stem the peak is `r1 × effectiveVolume/100`, hence lies in
`[0, effectiveVolume/100]` and is strictly below `effectiveVolume/100`
whenever the effective volume is positive (the interval degenerates to `{0}`
when it is 0), and `rms = peak × u` with `u = 0.6 + 0.2·r2 ∈ [0.6, 0.8)`. -/
theorem meterFrame_spec (soloedIds : List String) (ref : Bool) (stem : AudioStem)
    (r1 r2 : ℚ) (h10 : 0 ≤ r1) (h11 : r1 < 1) (h20 : 0 ≤ r2) (h21 : r2 < 1)
    (hvol : 0 ≤ stem.volume) :
    (stemFrame soloedIds ref stem r1 r2).2 ≤ (stemFrame soloedIds ref stem r1 r2).1
    ∧ (isStemActive soloedIds stem = true →
        0 ≤ (stemFrame soloedIds ref stem r1 r2).1
        ∧ (stemFrame soloedIds ref stem r1 r2).1 ≤ effectiveVol ref stem / 100
        ∧ (0 < effectiveVol ref stem →
            (stemFrame soloedIds ref stem r1 r2).1 < effectiveVol ref stem / 100)
        ∧ (stemFrame soloedIds ref stem r1 r2).2
            = (stemFrame soloedIds ref stem r1 r2).1 * (0.6 + r2 * 0.2)
        ∧ (0.6 : ℚ) ≤ 0.6 + r2 * 0.2
        ∧ 0.6 + r2 * 0.2 < 0.8) := by
  have hv : 0 ≤ effectiveVol ref stem := by
    unfold effectiveVol
    split_ifs with h
    · exact le_trans (by norm_num) (le_max_left 15 _)
    · exact hvol
  have hpeak_nonneg : 0 ≤ r1 * (effectiveVol ref stem / 100) :=
    mul_nonneg h10 (by positivity)
  by_cases hact : isStemActive soloedIds stem = true
  · have hframe : stemFrame soloedIds ref stem r1 r2
        = (r1 * (effectiveVol ref stem / 100),
           r1 * (effectiveVol ref stem / 100) * (0.6 + r2 * 0.2)) := by
      simp [stemFrame, hact, meterPeak, meterRms]
    rw [hframe]
    refine ⟨?_, fun _ => ⟨hpeak_nonneg, ?_, ?_, rfl, by linarith, by linarith⟩⟩
    · calc r1 * (effectiveVol ref stem / 100) * (0.6 + r2 * 0.2)
          ≤ r1 * (effectiveVol ref stem / 100) * 1 :=
            mul_le_mul_of_nonneg_left (by linarith) hpeak_nonneg
        _ = r1 * (effectiveVol ref stem / 100) := mul_one _
    · calc r1 * (effectiveVol ref stem / 100)
          ≤ 1 * (effectiveVol ref stem / 100) :=
            mul_le_mul_of_nonneg_right (le_of_lt h11) (by positivity)
        _ = effectiveVol ref stem / 100 := one_mul _
    · intro hpos
      calc r1 * (effectiveVol ref stem / 100)
          < 1 * (effectiveVol ref stem / 100) :=
            mul_lt_mul_of_pos_right h11 (by positivity)
        _ = effectiveVol ref stem / 100 := one_mul _
  · have hact' : isStemActive soloedIds stem = false := by
      cases hb : isStemActive soloedIds stem
      · rfl
      · exact absurd hb hact
    simp [stemFrame, hact']

/-- Witness for `meterFrame_spec`: the active stem `Guitars / Keys` at volume
90 with draws `r1 = r2 = 1/2` gets peak `9/20`, rms `63/200 ≤ 9/20`, and the
peak is strictly below `90/100`. -/
theorem meterFrame_spec_witness :
    (stemFrame [] false { id := "2", name := "Guitars / Keys", volume := 90, muted := false,
                          color := "blue-400", pan := some 0 } (1/2) (1/2)).2
      ≤ (stemFrame [] false { id := "2", name := "Guitars / Keys", volume := 90, muted := false,
                              color := "blue-400", pan := some 0 } (1/2) (1/2)).1
    ∧ (stemFrame [] false { id := "2", name := "Guitars / Keys", volume := 90, muted := false,
                            color := "blue-400", pan := some 0 } (1/2) (1/2)).1
        < effectiveVol false { id := "2", name := "Guitars / Keys", volume := 90, muted := false,
                               color := "blue-400", pan := some 0 } / 100 := by
  have h := meterFrame_spec [] false
    { id := "2", name := "Guitars / Keys", volume := 90, muted := false,
      color := "blue-400", pan := some 0 } (1/2) (1/2)
    (by norm_num) (by norm_num) (by norm_num) (by norm_num) (by norm_num)
  exact ⟨h.1, (h.2 (by decide)).2.2.1 (by simp [effectiveVol, isVocalStem, containsVocal])⟩

/-- C10 counterexample: the linear ramp `1 − (i/12)·0.4` evaluated at the
highest band `i = N − 1 = 11` is `19/30 ≈ 0.6333`, not `0.6` — the weight
does not reach `0.6` at the highest band. -/
theorem bandWeight_counterexample :
    bandWeight (EQ_BANDS - 1) = 19/30 ∧ (19/30 : ℚ) ≠ 3/5 := by
  constructor
  · norm_num [bandWeight, EQ_BANDS]
  · norm_num

/-- C10 amended: each band level equals `peak_source × weight(i) × u` with
`u = 0.3 + 0.7·r' ∈ [0.3, 1)` and `peak_source = r × effectiveVol/100 ∈
[0, effectiveVol/100]`; the weight is the linear ramp `1 − 0.4·i/N` (N = 12):
it is `1.0` at the lowest band, decays by the constant step `0.4/N` per band,
equals `3/5 + 0.4/N = 19/30` at the highest band `i = N − 1`, and would reach
`3/5 = 0.6` only at the out-of-range index `N`. -/
theorem bandLevel_spec (r r' vol : ℚ) (i : ℕ)
    (hr0 : 0 ≤ r) (hr1 : r < 1) (hs0 : 0 ≤ r') (hs1 : r' < 1) (hvol : 0 ≤ vol) :
    bandLevel r r' vol i = meterPeak r vol * bandWeight i * (0.3 + r' * 0.7)
    ∧ (0.3 : ℚ) ≤ 0.3 + r' * 0.7
    ∧ 0.3 + r' * 0.7 < 1
    ∧ 0 ≤ meterPeak r vol
    ∧ meterPeak r vol ≤ vol / 100
    ∧ bandWeight 0 = 1
    ∧ (∀ j : ℕ, bandWeight j - bandWeight (j + 1) = 0.4 / (EQ_BANDS : ℚ))
    ∧ bandWeight (EQ_BANDS - 1) = 3/5 + 0.4 / (EQ_BANDS : ℚ)
    ∧ bandWeight EQ_BANDS = 3/5 := by
  refine ⟨rfl, by linarith, by linarith, mul_nonneg hr0 (by positivity), ?_, ?_, ?_, ?_, ?_⟩
  · calc r * (vol / 100) ≤ 1 * (vol / 100) :=
        mul_le_mul_of_nonneg_right (le_of_lt hr1) (by positivity)
      _ = vol / 100 := one_mul _
  · norm_num [bandWeight]
  · intro j
    unfold bandWeight EQ_BANDS
    push_cast
    ring
  · norm_num [bandWeight, EQ_BANDS]
  · norm_num [bandWeight, EQ_BANDS]

/-- Witness for `bandLevel_spec` at `r = r' = 1/2`, `vol = 80`, band 3. -/
theorem bandLevel_spec_witness :
    bandLevel (1/2) (1/2) 80 3 = meterPeak (1/2) 80 * bandWeight 3 * (0.3 + (1/2) * 0.7)
    ∧ bandWeight 0 = 1
    ∧ bandWeight (EQ_BANDS - 1) = 3/5 + 0.4 / (EQ_BANDS : ℚ) := by
  have h := bandLevel_spec (1/2) (1/2) 80 3
    (by norm_num) (by norm_num) (by norm_num) (by norm_num) (by norm_num)
  exact ⟨h.1, h.2.2.2.2.2.1, h.2.2.2.2.2.2.2.1⟩

/-- C9: every write through the volume slider ends with that stem's volume in
`[0, 100]`, and every write through the pan slider ends with that stem's pan
in `[-100, 100]`, for every raw input value (the range control clamps it);
stems with other ids are untouched, so the registry range invariant is
preserved by both writes, with no error surfaced. -/
theorem controls_clamped (stems : List AudioStem) (id : String) (rawV rawP : ℤ)
    (hinv : ∀ s ∈ stems, stemInRange s) :
    (∀ s ∈ setStemVolume stems id rawV, stemInRange s)
    ∧ (∀ s ∈ setStemPan stems id rawP, stemInRange s) := by
  have hclampV : (0 : ℤ) ≤ clampRangeInput 0 100 rawV ∧ clampRangeInput 0 100 rawV ≤ 100 := by
    unfold clampRangeInput
    omega
  have hclampP : (-100 : ℤ) ≤ clampRangeInput (-100) 100 rawP
      ∧ clampRangeInput (-100) 100 rawP ≤ 100 := by
    unfold clampRangeInput
    omega
  constructor
  · intro s hs
    obtain ⟨s0, hs0, rfl⟩ := List.mem_map.mp hs
    by_cases h : s0.id == id
    · have hr := hinv s0 hs0
      simp only [h, if_true]
      refine ⟨?_, ?_, hr.2.2.1, hr.2.2.2⟩
      · show (0 : ℚ) ≤ ((clampRangeInput 0 100 rawV : ℤ) : ℚ)
        exact_mod_cast hclampV.1
      · show ((clampRangeInput 0 100 rawV : ℤ) : ℚ) ≤ 100
        exact_mod_cast hclampV.2
    · simp only [h, if_false]
      exact hinv s0 hs0
  · intro s hs
    obtain ⟨s0, hs0, rfl⟩ := List.mem_map.mp hs
    by_cases h : s0.id == id
    · have hr := hinv s0 hs0
      simp only [h, if_true]
      refine ⟨hr.1, hr.2.1, ?_, ?_⟩
      · show (-100 : ℚ) ≤ (Option.some ((clampRangeInput (-100) 100 rawP : ℤ) : ℚ)).getD 0
        simp only [Option.getD_some]
        exact_mod_cast hclampP.1
      · show (Option.some ((clampRangeInput (-100) 100 rawP : ℤ) : ℚ)).getD 0 ≤ 100
        simp only [Option.getD_some]
        exact_mod_cast hclampP.2
    · simp only [h, if_false]
      exact hinv s0 hs0

/-- Witness for `controls_clamped`: writing raw volume 250 and raw pan −250
to the single stem of a well-formed registry leaves that stem in range
(volume clamps to 100, pan to −100). -/
theorem controls_clamped_witness :
    stemInRange { id := "1", name := "Vox", volume := ((100 : ℤ) : ℚ), muted := false,
                  color := "emerald-400", pan := some 0 } := by
  have h := (controls_clamped
    [{ id := "1", name := "Vox", volume := 80, muted := false,
       color := "emerald-400", pan := some 0 }] "1" 250 (-250)
    (by intro s hs; simp at hs; subst hs; exact ⟨by norm_num, by norm_num, by norm_num, by norm_num⟩)).1
  have hm : { id := "1", name := "Vox", volume := ((100 : ℤ) : ℚ), muted := false,
              color := "emerald-400", pan := (some 0 : Option ℚ) }
      ∈ setStemVolume
          [{ id := "1", name := "Vox", volume := 80, muted := false,
             color := "emerald-400", pan := some 0 }] "1" 250 := by
    simp [setStemVolume, clampRangeInput]
  exact h _ hm

/-- Restoring stems applies `{ ...s, pan: s.pan ?? 0 }`; when every stem has
a pan value (true of every stem the module ever constructs — all creation
paths write `pan: 0` and the load path itself fills it in), this is the
identity. -/
lemma map_pan_getD_eq_self (l : List AudioStem) (hl : ∀ s ∈ l, s.pan.isSome = true) :
    l.map (fun s => { s with pan := some (s.pan.getD 0) }) = l := by
  induction l with
  | nil => rfl
  | cons x xs ih =>
    have hx : x.pan.isSome = true := hl x (List.mem_cons_self x xs)
    rw [List.map_cons, ih (fun s hs => hl s (List.mem_cons_of_mem x hs))]
    cases hp : x.pan with
    | none => rw [hp] at hx; exact absurd hx (by simp)
    | some p => cases x with
      | mk id name volume muted color pan =>
        simp only at hp
        rw [hp]
        rfl

/-- C8: whenever `save()` actually writes (a song file is present, so
`saveProjectToLocal` returns a blob), an immediate `load()` of that blob
reproduces exactly the stem registry (every stem's id, name, volume, pan,
muted, color), the solo set, and the metadata carrying the lyric cue
sequence, with no error signalled.  Stems need their `pan` field present,
which holds for every state the module constructs. -/
theorem save_load_roundtrip (st : LabState) (now : ℤ) (sp : SavedProject)
    (hpan : ∀ s ∈ st.stems, s.pan.isSome = true)
    (hsave : saveProjectToLocal now st = some sp) :
    ((loadProjectFromLocal (some (Except.ok sp)) st).1).stems = st.stems
    ∧ ((loadProjectFromLocal (some (Except.ok sp)) st).1).soloedIds = st.soloedIds
    ∧ ((loadProjectFromLocal (some (Except.ok sp)) st).1).metadata = st.metadata
    ∧ (loadProjectFromLocal (some (Except.ok sp)) st).2 = none := by
  unfold saveProjectToLocal at hsave
  cases hf : st.songFile with
  | none => rw [hf] at hsave; exact absurd hsave (by simp)
  | some fname =>
    rw [hf] at hsave
    have hsp : sp = { stems := st.stems, soloedIds := st.soloedIds, metadata := st.metadata,
                      playbackSpeed := st.playbackSpeed, pitch := st.pitch,
                      isolationThreshold := st.isolationThreshold,
                      isProjectGenerated := st.isProjectGenerated,
                      songFileName := fname, timestamp := now } := by
      injection hsave with h
      exact h.symm
    subst hsp
    unfold loadProjectFromLocal
    exact ⟨map_pan_getD_eq_self st.stems hpan, rfl, rfl, rfl⟩

/-- Witness for `save_load_roundtrip` at a concrete session (one vocal stem,
one soloed id, one lyric cue, a song file): the restored registry, solo set
and metadata equal the originals. -/
theorem save_load_roundtrip_witness :
    ((loadProjectFromLocal
        (some (Except.ok
          { stems := [{ id := "1", name := "Isolated Vocals", volume := 80, muted := false,
                        color := "emerald-400", pan := some 0 }],
            soloedIds := ["1"],
            metadata := some { bpm := 124, key := "Bm", chords := ["Bm", "G"],
                               lyrics := some [{ time := 5, text := "Spectral isolation complete" }] },
            playbackSpeed := 1, pitch := 0, isolationThreshold := 75,
            isProjectGenerated := false, songFileName := "track.mp3", timestamp := 7 }))
        { stems := [{ id := "1", name := "Isolated Vocals", volume := 80, muted := false,
                      color := "emerald-400", pan := some 0 }],
          soloedIds := ["1"],
          metadata := some { bpm := 124, key := "Bm", chords := ["Bm", "G"],
                             lyrics := some [{ time := 5, text := "Spectral isolation complete" }] },
          playbackSpeed := 1, pitch := 0, isolationThreshold := 75,
          isProjectGenerated := false, songFile := some "track.mp3",
          activeModule := LabModule.DAW }).1).stems
      = [{ id := "1", name := "Isolated Vocals", volume := 80, muted := false,
           color := "emerald-400", pan := some 0 }]
    ∧ ((loadProjectFromLocal
        (some (Except.ok
          { stems := [{ id := "1", name := "Isolated Vocals", volume := 80, muted := false,
                        color := "emerald-400", pan := some 0 }],
            soloedIds := ["1"],
            metadata := some { bpm := 124, key := "Bm", chords := ["Bm", "G"],
                               lyrics := some [{ time := 5, text := "Spectral isolation complete" }] },
            playbackSpeed := 1, pitch := 0, isolationThreshold := 75,
            isProjectGenerated := false, songFileName := "track.mp3", timestamp := 7 }))
        { stems := [{ id := "1", name := "Isolated Vocals", volume := 80, muted := false,
                      color := "emerald-400", pan := some 0 }],
          soloedIds := ["1"],
          metadata := some { bpm := 124, key := "Bm", chords := ["Bm", "G"],
                             lyrics := some [{ time := 5, text := "Spectral isolation complete" }] },
          playbackSpeed := 1, pitch := 0, isolationThreshold := 75,
          isProjectGenerated := false, songFile := some "track.mp3",
          activeModule := LabModule.DAW }).1).soloedIds
      = ["1"] := by
  have h := save_load_roundtrip
    { stems := [{ id := "1", name := "Isolated Vocals", volume := 80, muted := false,
                  color := "emerald-400", pan := some 0 }],
      soloedIds := ["1"],
      metadata := some { bpm := 124, key := "Bm", chords := ["Bm", "G"],
                         lyrics := some [{ time := 5, text := "Spectral isolation complete" }] },
      playbackSpeed := 1, pitch := 0, isolationThreshold := 75,
      isProjectGenerated := false, songFile := some "track.mp3",
      activeModule := LabModule.DAW } 7
    { stems := [{ id := "1", name := "Isolated Vocals", volume := 80, muted := false,
                  color := "emerald-400", pan := some 0 }],
      soloedIds := ["1"],
      metadata := some { bpm := 124, key := "Bm", chords := ["Bm", "G"],
                         lyrics := some [{ time := 5, text := "Spectral isolation complete" }] },
      playbackSpeed := 1, pitch := 0, isolationThreshold := 75,
      isProjectGenerated := false, songFileName := "track.mp3", timestamp := 7 }
    (by intro s hs; simp at hs; subst hs; rfl) rfl
  exact ⟨h.1, h.2.1⟩

/-- A cue that satisfies the spec's `currentIndex` predicate is an index into
the cue list. -/
lemma isCurrentCue_length {l : List LyricLine} {t : ℚ} {i : ℕ}
    (h : isCurrentCue l t i = true) : i < l.length := by
  unfold isCurrentCue at h
  cases hg : l[i]? with
  | none => rw [hg] at h; simp at h
  | some c => exact (List.getElem?_eq_some_iff.mp hg).1

/-- The `currentIndex` predicate is invariant under shifting past the head of
the cue list. -/
lemma isCurrentCue_cons (a : LyricLine) (l : List LyricLine) (t : ℚ) (i : ℕ) :
    isCurrentCue (a :: l) t (i + 1) = isCurrentCue l t i := by
  unfold isCurrentCue
  rw [List.getElem?_cons_succ, List.getElem?_cons_succ]

/-- A cue satisfying the `currentIndex` predicate has started (`time ≤ t`). -/
lemma isCurrentCue_some_le {l : List LyricLine} {t : ℚ} {j : ℕ}
    (h : isCurrentCue l t j = true) : ∃ c, l[j]? = some c ∧ c.time ≤ t := by
  unfold isCurrentCue at h
  cases hg : l[j]? with
  | none => rw [hg] at h; simp at h
  | some c =>
    rw [hg] at h
    cases hg' : l[j + 1]? with
    | none => rw [hg'] at h; simp at h; exact ⟨c, rfl, h⟩
    | some c' => rw [hg'] at h; simp at h; exact ⟨c, rfl, h.1⟩

/-- If every cue starts strictly after `t`, no index satisfies the
`currentIndex` predicate. -/
lemma isCurrentCue_false_of_all_gt {l : List LyricLine} {t : ℚ}
    (hall : ∀ c ∈ l, t < c.time) (i : ℕ) : isCurrentCue l t i = false := by
  cases hb : isCurrentCue l t i
  · rfl
  · rcases isCurrentCue_some_le hb with ⟨c, hg, hle⟩
    exact absurd hle (not_le.mpr (hall c (List.getElem?_mem hg)))

/-- `findLyricIdx` returns "none" exactly when no cue's time is `≤ t`
(the list is empty or `t` is before every cue); no sortedness needed. -/
lemma findLyricIdx_eq_none_iff (l : List LyricLine) (t : ℚ) :
    findLyricIdx l t = none ↔ ∀ c ∈ l, t < c.time := by
  induction l with
  | nil => simp [findLyricIdx]
  | cons a l ih =>
    cases l with
    | nil =>
      by_cases h : a.time ≤ t
      · have hred : findLyricIdx [a] t = some 0 := by simp [findLyricIdx, h]
        rw [hred]
        constructor
        · intro hc; exact absurd hc (by simp)
        · intro hall; exact absurd (hall a (by simp)) (not_lt.mpr h)
      · have hred : findLyricIdx [a] t = none := by simp [findLyricIdx, h]
        rw [hred]
        have ht := not_le.mp h
        simp [ht]
    | cons b l' =>
      by_cases h : a.time ≤ t ∧ t < b.time
      · have hred : findLyricIdx (a :: b :: l') t = some 0 := by
          simp only [findLyricIdx]; rw [if_pos h]
        rw [hred]
        constructor
        · intro hc; exact absurd hc (by simp)
        · intro hall; exact absurd (hall a (by simp)) (not_lt.mpr h.1)
      · have hred : findLyricIdx (a :: b :: l') t = (findLyricIdx (b :: l') t).map Nat.succ := by
          simp only [findLyricIdx]; rw [if_neg h]
        rw [hred, Option.map_eq_none', ih]
        constructor
        · intro hall c hc
          rcases List.mem_cons.mp hc with rfl | hc'
          · rcases not_and_or.mp h with h' | h'
            · exact not_le.mp h'
            · exact absurd (hall b (by simp)) h'
          · exact hall c hc'
        · intro hall c hc
          exact hall c (List.mem_cons_of_mem a hc)

/-- For a cue list sorted by strictly ascending time, `findLyricIdx` returns
`some i` exactly when `i` satisfies the spec's `currentIndex` predicate. -/
lemma findLyricIdx_eq_some_iff (l : List LyricLine) (t : ℚ) :
    l.Pairwise (fun x y => x.time < y.time) →
    ∀ i : ℕ, (findLyricIdx l t = some i ↔ isCurrentCue l t i = true) := by
  induction l with
  | nil => intro _ i; simp [findLyricIdx, isCurrentCue]
  | cons a l ih =>
    intro hs i
    cases l with
    | nil =>
      by_cases h : a.time ≤ t
      · have hred : findLyricIdx [a] t = some 0 := by simp [findLyricIdx, h]
        rw [hred]
        cases i with
        | zero => simp [isCurrentCue, h]
        | succ n => simp [isCurrentCue]
      · have hred : findLyricIdx [a] t = none := by simp [findLyricIdx, h]
        rw [hred]
        cases i with
        | zero => simp [isCurrentCue, h]
        | succ n => simp [isCurrentCue]
    | cons b l' =>
      have hs' : (b :: l').Pairwise (fun x y => x.time < y.time) :=
        (List.pairwise_cons.mp hs).2
      by_cases h : a.time ≤ t ∧ t < b.time
      · have hred : findLyricIdx (a :: b :: l') t = some 0 := by
          simp only [findLyricIdx]; rw [if_pos h]
        rw [hred]
        cases i with
        | zero => simp [isCurrentCue, h.1, h.2]
        | succ n =>
          have hall : ∀ c ∈ b :: l', t < c.time := by
            intro c hc
            rcases List.mem_cons.mp hc with rfl | hc'
            · exact h.2
            · exact lt_trans h.2 ((List.pairwise_cons.mp hs').1 c hc')
          rw [isCurrentCue_cons]
          simp [isCurrentCue_false_of_all_gt hall n]
      · have hred : findLyricIdx (a :: b :: l') t = (findLyricIdx (b :: l') t).map Nat.succ := by
          simp only [findLyricIdx]; rw [if_neg h]
        rw [hred]
        cases i with
        | zero =>
          constructor
          · intro hc
            rcases Option.map_eq_some'.mp hc with ⟨x, _, hx⟩
            exact absurd hx (Nat.succ_ne_zero x)
          · intro hc
            unfold isCurrentCue at hc
            simp at hc
            exact absurd hc h
        | succ n =>
          rw [isCurrentCue_cons]
          constructor
          · intro hc
            rcases Option.map_eq_some'.mp hc with ⟨x, hx, hxe⟩
            exact Nat.succ_injective hxe ▸ (ih hs' x).mp hx
          · intro hc
            rw [(ih hs' n).mpr hc]
            rfl

/-- For a sorted cue list at most one index satisfies the `currentIndex`
predicate, so the satisfying index bounds every other satisfying index. -/
lemma isCurrentCue_unique (l : List LyricLine) (t : ℚ)
    (hs : l.Pairwise (fun x y => x.time < y.time)) {i j : ℕ}
    (hi : isCurrentCue l t i = true) (hj : isCurrentCue l t j = true) : j ≤ i := by
  by_contra hgt
  push_neg at hgt
  have hjl : j < l.length := isCurrentCue_length hj
  have hi1 : i + 1 < l.length := Nat.lt_of_le_of_lt (Nat.succ_le_of_lt hgt) hjl
  obtain ⟨c', hg'⟩ : ∃ c', l[i + 1]? = some c' := by
    rw [List.getElem?_eq_getElem hi1]; exact ⟨_, rfl⟩
  obtain ⟨cj, hgj, hcj⟩ := isCurrentCue_some_le hj
  unfold isCurrentCue at hi
  obtain ⟨ci, hgi⟩ : ∃ ci, l[i]? = some ci := by
    cases hb : l[i]? with
    | none => rw [hb] at hi; simp at hi
    | some ci => exact ⟨ci, rfl⟩
  rw [hgi, hg'] at hi
  simp at hi
  have e1 := (List.getElem?_eq_getElem hi1).symm.trans hg'
  have e2 := (List.getElem?_eq_getElem hjl).symm.trans hgj
  injection e1 with e1
  injection e2 with e2
  rcases Nat.lt_or_ge (i + 1) j with hlt | hge
  · have hp := (List.pairwise_iff_getElem.mp hs) (i + 1) j hi1 hjl hlt
    rw [e1, e2] at hp
    linarith [hi.2, hcj]
  · have hej : i + 1 = j := Nat.le_antisymm (Nat.succ_le_of_lt hgt) hge
    subst hej
    rw [hg'] at hgj
    injection hgj with he
    subst he
    linarith [hi.2, hcj]

/-- C6: for a cue list sorted by strictly ascending time, `findLyricIdx`
returns `some i` exactly when `i` is the greatest index whose cue has
started and whose successor (if any) has not; it returns `none` exactly when
no cue's time is `≤ t` (before the first cue, or empty list); and
`currentLyricIndex` is `none` for absent metadata and otherwise evaluates
`findLyricIdx` at the transport time `progress/100 × trackDuration`. -/
theorem currentLyric_spec (l : List LyricLine) (t p : ℚ)
    (hs : l.Pairwise (fun x y => x.time < y.time)) :
    (∀ i : ℕ, findLyricIdx l t = some i ↔
        (isCurrentCue l t i = true ∧ ∀ j : ℕ, isCurrentCue l t j = true → j ≤ i))
    ∧ (findLyricIdx l t = none ↔ ∀ c ∈ l, t < c.time)
    ∧ currentLyricIndex none p = none
    ∧ currentLyricIndex (some { bpm := 124, key := "Bm", chords := [], lyrics := some l })
        (t / trackDuration * 100) = findLyricIdx l t := by
  refine ⟨?_, findLyricIdx_eq_none_iff l t, rfl, ?_⟩
  · intro i
    constructor
    · intro h
      have hcue := (findLyricIdx_eq_some_iff l t hs i).mp h
      exact ⟨hcue, fun j hj => isCurrentCue_unique l t hs hcue hj⟩
    · intro h
      exact (findLyricIdx_eq_some_iff l t hs i).mpr h.1
  · show findLyricIdx l (t / trackDuration * 100 / 100 * trackDuration) = findLyricIdx l t
    have harg : t / trackDuration * 100 / 100 * trackDuration = t := by
      unfold trackDuration
      ring
    rw [harg]

/-- Witness for `currentLyric_spec`, the spec's seek-then-play scenario: cues
at times 5, 12, 20; at `t = 13` the index is 1 ("B"), at `t = 4` it is none. -/
theorem currentLyric_spec_witness :
    findLyricIdx [⟨5, "A"⟩, ⟨12, "B"⟩, ⟨20, "C"⟩] 13 = some 1
    ∧ findLyricIdx [⟨5, "A"⟩, ⟨12, "B"⟩, ⟨20, "C"⟩] 4 = none := by
  have hs : ([⟨5, "A"⟩, ⟨12, "B"⟩, ⟨20, "C"⟩] : List LyricLine).Pairwise
      (fun x y => x.time < y.time) := by
    norm_num [List.pairwise_cons]
  constructor
  · refine ((currentLyric_spec _ 13 0 hs).1 1).mpr ⟨by norm_num [isCurrentCue], ?_⟩
    intro j hj
    have hlen := isCurrentCue_length hj
    simp only [List.length_cons, List.length_nil] at hlen
    interval_cases j
    · norm_num
    · norm_num
    · rw [show isCurrentCue [⟨5, "A"⟩, ⟨12, "B"⟩, ⟨20, "C"⟩] 13 2 = false from by
        norm_num [isCurrentCue]] at hj
      exact absurd hj (by simp)
  · exact (currentLyric_spec _ 4 0 hs).2.1.mpr (by intro c hc; fin_cases hc <;> norm_num)
